import Mathlib

set_option maxHeartbeats 1600000

/- Shallow embedding of src/music_mixer_logic.py.
   Strings model Python str; paths are plain strings; audio segments are
   modelled by their length in milliseconds as a rational number (pydub
   AudioSegment lengths; concatenation adds lengths, slicing truncates,
   overlay keeps the length of the base segment, gain does not change
   length).  Randomness and the external audio libraries (librosa, pydub
   decoding) are modelled as explicit oracles. -/

/- ---------- Python string / os.path helpers ---------- -/

/-- Python str.lower, character by character (ASCII is what the code relies on). -/
def lowerStr (s : String) : String := String.mk (s.data.map Char.toLower)

/-- Python os.path.basename: the part after the last slash. -/
def basename (p : String) : String :=
  String.mk ((p.data.reverse.takeWhile (fun c => c ≠ '/')).reverse)

/-- Python os.path.dirname: the part before the last slash (empty when no slash). -/
def dirname (p : String) : String :=
  if p.data.contains '/' then
    String.mk (((p.data.reverse.dropWhile (fun c => c ≠ '/')).drop 1).reverse)
  else ""

/-- Does the haystack start with the needle (on character lists)? -/
def listStartsWith : List Char → List Char → Bool
  | [], _ => true
  | _ :: _, [] => false
  | n :: ns, h :: hs => n = h && listStartsWith ns hs

/-- Substring test on character lists, scanning start positions left to right. -/
def containsSub (needle : List Char) : List Char → Bool
  | [] => needle.isEmpty
  | c :: t => listStartsWith needle (c :: t) || containsSub needle t

/-- Python `needle in hay` for strings. -/
def strContains (hay needle : String) : Bool := containsSub needle.data hay.data

/- ---------- Camelot wheel (music_mixer_logic.py lines 17-22, 110-130) ---------- -/

/-- CAMELOT_WHEEL dictionary from the source, as an association list. -/
def CAMELOT_WHEEL : List (String × String) :=
  [("1A", "B"), ("2A", "F"), ("3A", "C"), ("4A", "G"), ("5A", "D"), ("6A", "A"),
   ("7A", "E"), ("8A", "B"), ("9A", "F#"), ("10A", "C#"), ("11A", "G#"), ("12A", "D#"),
   ("1B", "G#"), ("2B", "D#"), ("3B", "A#"), ("4B", "F"), ("5B", "C"), ("6B", "G"),
   ("7B", "D"), ("8B", "A"), ("9B", "E"), ("10B", "B"), ("11B", "F#"), ("12B", "C#")]

/-- The 24 valid Camelot codes (the key set of the dictionary). -/
def camelotCodes : List String := CAMELOT_WHEEL.map Prod.fst

/-- Decimal value of a digit string, as Python int() on an all-digit string. -/
def digitsToNat (ds : List Char) : ℕ :=
  ds.foldl (fun a c => a * 10 + (c.toNat - 48)) 0

/-- Decimal rendering of a number below 100 (covers the 1..12 wheel positions),
as Python f-string formatting does for these values. -/
def natToStr2 (n : ℕ) : String :=
  if n < 10 then String.mk [Char.ofNat (48 + n)]
  else String.mk [Char.ofNat (48 + n / 10), Char.ofNat (48 + n % 10)]

/-- MusicMixer.get_compatible_keys (lines 110-130): `[key]` for an unknown code,
otherwise `[key, letter-swapped, next number, previous number]` where the
number wraps from 12 to 1 and from 1 to 12 (`int(key[:-1])` and `key[-1]`
are modelled on the character list). -/
def get_compatible_keys (key : String) : List String :=
  if camelotCodes.contains key = false then [key]
  else
    let num := digitsToNat key.data.dropLast
    let letter := key.data.getLastD ' '
    let nextNum := if num < 12 then num + 1 else 1
    let prevNum := if num > 1 then num - 1 else 12
    [key,
     natToStr2 num ++ (if letter = 'A' then "B" else "A"),
     natToStr2 nextNum ++ String.mk [letter],
     natToStr2 prevNum ++ String.mk [letter]]

/-- Numeric part of a Camelot code (for the spec-side description). -/
def camelotNum (key : String) : ℕ := digitsToNat key.data.dropLast

/-- Letter part of a Camelot code (for the spec-side description). -/
def camelotLetter (key : String) : Char := key.data.getLastD ' '

/-- Spec-side description: the same number with the letter swapped. -/
def specSwapKey (key : String) : String :=
  natToStr2 (camelotNum key) ++ (if camelotLetter key = 'A' then "B" else "A")

/-- Spec-side description: numeric successor modulo 12 (on the wheel 1..12), same letter. -/
def specNextKey (key : String) : String :=
  natToStr2 (camelotNum key % 12 + 1) ++ String.mk [camelotLetter key]

/-- Spec-side description: numeric predecessor modulo 12 (on the wheel 1..12), same letter. -/
def specPrevKey (key : String) : String :=
  natToStr2 ((camelotNum key + 10) % 12 + 1) ++ String.mk [camelotLetter key]

/-- C2: for every valid Camelot key, get_compatible_keys returns exactly the
four keys key, swap-letter(key), key+1, key-1 (wrapping modulo 12, letter
unchanged for the neighbours); the four are distinct and include the key itself. -/
theorem c2_compatible_keys : ∀ key ∈ camelotCodes,
    get_compatible_keys key = [key, specSwapKey key, specNextKey key, specPrevKey key] ∧
    (get_compatible_keys key).length = 4 ∧
    (get_compatible_keys key).Nodup ∧
    key ∈ get_compatible_keys key := by
  decide

/-- Witness for C2 at the concrete key 8A. -/
theorem c2_compatible_keys_witness :
    "8A" ∈ camelotCodes ∧
    (get_compatible_keys "8A" = ["8A", specSwapKey "8A", specNextKey "8A", specPrevKey "8A"] ∧
     (get_compatible_keys "8A").length = 4 ∧
     (get_compatible_keys "8A").Nodup ∧
     "8A" ∈ get_compatible_keys "8A") :=
  ⟨by decide, c2_compatible_keys "8A" (by decide)⟩

/-- C10: key compatibility is symmetric on valid Camelot keys. -/
theorem c10_compat_symmetric : ∀ a ∈ camelotCodes, ∀ b ∈ camelotCodes,
    (b ∈ get_compatible_keys a ↔ a ∈ get_compatible_keys b) := by
  decide

/-- Witness for C10 at the concrete pair 8A, 9A. -/
theorem c10_compat_symmetric_witness :
    "8A" ∈ camelotCodes ∧ "9A" ∈ camelotCodes ∧
    ("9A" ∈ get_compatible_keys "8A" ↔ "8A" ∈ get_compatible_keys "9A") :=
  ⟨by decide, by decide, c10_compat_symmetric "8A" (by decide) "9A" (by decide)⟩

/- ---------- extract_bpm_from_filename (lines 90-108) ----------
   The six regular expressions are compiled into direct matchers over
   character lists, with Python re.search semantics: start positions are
   scanned left to right, and at each start position the greedy 2-or-3
   digit group backtracks from 3 digits to 2.  re.IGNORECASE only affects
   the literal letters b, p, m. -/

/-- Python regex character class `[\s_-]` (ASCII whitespace, underscore, hyphen). -/
def isDelim (c : Char) : Bool :=
  c = ' ' || c = '\t' || c = '\n' || c = '\r' || c.toNat = 11 || c.toNat = 12 || c = '_' || c = '-'

/-- Consume the literal `bpm` case-insensitively; return the rest on success. -/
def eatBpm : List Char → Option (List Char)
  | b :: p :: m :: rest =>
    if b.toLower = 'b' ∧ p.toLower = 'p' ∧ m.toLower = 'm' then some rest else none
  | _ => none

/-- Python `$` without re.M: end of string, or just before a final newline. -/
def atEnd : List Char → Bool
  | [] => true
  | [c] => c = '\n'
  | _ => false

/-- Matcher for `(\d{2,3})bpm` at one start position. -/
def p1At : List Char → Option ℕ
  | d1 :: d2 :: d3 :: rest =>
    if d1.isDigit ∧ d2.isDigit ∧ d3.isDigit ∧ (eatBpm rest).isSome then
      some (digitsToNat [d1, d2, d3])
    else if d1.isDigit ∧ d2.isDigit ∧ (eatBpm (d3 :: rest)).isSome then
      some (digitsToNat [d1, d2])
    else none
  | _ => none

/-- Greedy `(\d{2,3})` with nothing after the group: three digits if available, else two. -/
def grabDigits23 : List Char → Option ℕ
  | d1 :: d2 :: d3 :: _ =>
    if d1.isDigit ∧ d2.isDigit ∧ d3.isDigit then some (digitsToNat [d1, d2, d3])
    else if d1.isDigit ∧ d2.isDigit then some (digitsToNat [d1, d2])
    else none
  | [d1, d2] =>
    if d1.isDigit ∧ d2.isDigit then some (digitsToNat [d1, d2]) else none
  | _ => none

/-- Matcher for `bpm[\s_-]*(\d{2,3})` at one start position (the starred
delimiter class is disjoint from digits, so maximal munch is exact). -/
def p2At (s : List Char) : Option ℕ :=
  (eatBpm s).bind (fun rest => grabDigits23 (rest.dropWhile isDelim))

/-- Helper for pattern 3: a delimiter followed by the literal bpm. -/
def delimThenBpm : List Char → Bool
  | c :: rest => isDelim c && (eatBpm rest).isSome
  | [] => false

/-- Digit part of `[\s_-](\d{2,3})[\s_-]bpm`, with 3-to-2 backtracking. -/
def p3Digits : List Char → Option ℕ
  | d1 :: d2 :: d3 :: rest =>
    if d1.isDigit ∧ d2.isDigit ∧ d3.isDigit ∧ delimThenBpm rest then
      some (digitsToNat [d1, d2, d3])
    else if d1.isDigit ∧ d2.isDigit ∧ delimThenBpm (d3 :: rest) then
      some (digitsToNat [d1, d2])
    else none
  | _ => none

/-- Matcher for `[\s_-](\d{2,3})[\s_-]bpm` at one start position. -/
def p3At : List Char → Option ℕ
  | c :: rest => if isDelim c then p3Digits rest else none
  | [] => none

/-- Does the list start with a delimiter character? -/
def headDelim : List Char → Bool
  | c :: _ => isDelim c
  | [] => false

/-- Does the list start with the given character? -/
def headIs (x : Char) : List Char → Bool
  | c :: _ => c = x
  | [] => false

/-- Matcher for the anchored `^(\d{2,3})[\s_-]` (only tried at position 0). -/
def p4At : List Char → Option ℕ
  | d1 :: d2 :: d3 :: rest =>
    if d1.isDigit ∧ d2.isDigit ∧ d3.isDigit ∧ headDelim rest then
      some (digitsToNat [d1, d2, d3])
    else if d1.isDigit ∧ d2.isDigit ∧ isDelim d3 then
      some (digitsToNat [d1, d2])
    else none
  | _ => none

/-- Digit part of `[\s_-](\d{2,3})$`, with 3-to-2 backtracking against `$`. -/
def p5Digits : List Char → Option ℕ
  | d1 :: d2 :: d3 :: rest =>
    if d1.isDigit ∧ d2.isDigit ∧ d3.isDigit ∧ atEnd rest then
      some (digitsToNat [d1, d2, d3])
    else if d1.isDigit ∧ d2.isDigit ∧ atEnd (d3 :: rest) then
      some (digitsToNat [d1, d2])
    else none
  | [d1, d2] =>
    if d1.isDigit ∧ d2.isDigit then some (digitsToNat [d1, d2]) else none
  | _ => none

/-- Matcher for `[\s_-](\d{2,3})$` at one start position. -/
def p5At : List Char → Option ℕ
  | c :: rest => if isDelim c then p5Digits rest else none
  | [] => none

/-- Digit part of `\((\d{2,3})\)`. -/
def p6Digits : List Char → Option ℕ
  | d1 :: d2 :: d3 :: rest =>
    if d1.isDigit ∧ d2.isDigit ∧ d3.isDigit ∧ headIs ')' rest then
      some (digitsToNat [d1, d2, d3])
    else if d1.isDigit ∧ d2.isDigit ∧ d3 = ')' then
      some (digitsToNat [d1, d2])
    else none
  | _ => none

/-- Matcher for `\((\d{2,3})\)` at one start position. -/
def p6At : List Char → Option ℕ
  | c :: rest => if c = '(' then p6Digits rest else none
  | [] => none

/-- Python re.search: try the matcher at every start position, left to right. -/
def searchFrom (m : List Char → Option ℕ) : List Char → Option ℕ
  | [] => m []
  | c :: t =>
    match m (c :: t) with
    | some v => some v
    | none => searchFrom m t

/-- The six searches, in the order of the `patterns` list of the source. -/
def bpmSearches : List (List Char → Option ℕ) :=
  [searchFrom p1At, searchFrom p2At, searchFrom p3At, p4At, searchFrom p5At, searchFrom p6At]

/-- Loop body of extract_bpm_from_filename: first match in [80,180] wins,
an out-of-range match falls through to the next pattern. -/
def extractLoop : List (List Char → Option ℕ) → List Char → Option ℕ
  | [], _ => none
  | m :: ms, s =>
    match m s with
    | some v => if 80 ≤ v ∧ v ≤ 180 then some v else extractLoop ms s
    | none => extractLoop ms s

/-- MusicMixer.extract_bpm_from_filename (lines 90-108). -/
def extract_bpm_from_filename (s : String) : Option ℕ :=
  extractLoop bpmSearches s.data

/-- Spec-side description of C7: the first in-range result among the ordered
pattern results determines the output. -/
def firstInRangeSpec (rs : List (Option ℕ)) : Option ℕ :=
  rs.findSome? (fun r => r.bind (fun v => if 80 ≤ v ∧ v ≤ 180 then some v else none))

/-- The extraction loop returns exactly the first in-range pattern result. -/
theorem extractLoop_eq_firstInRangeSpec (ms : List (List Char → Option ℕ)) (s : List Char) :
    extractLoop ms s = firstInRangeSpec (ms.map (fun m => m s)) := by
  induction ms with
  | nil => rfl
  | cons m ms ih =>
    simp only [extractLoop, firstInRangeSpec, List.map_cons, List.findSome?]
    cases hm : m s with
    | none => simpa [firstInRangeSpec] using ih
    | some v =>
      by_cases hv : 80 ≤ v ∧ v ≤ 180
      · simp [hv]
      · simpa [hv, firstInRangeSpec] using ih

/-- C7: tempo extraction tries the six textual patterns in the fixed order
(digits-then-bpm, bpm-then-digits, delimiter-bounded digits, leading digits,
trailing digits, parenthesized digits); the first pattern whose match is an
integer in [80,180] determines the result, out-of-range matches fall through,
and the result is none when no pattern yields an in-range integer; every
returned value lies in [80,180]. -/
theorem c7_extract_order (s : String) :
    extract_bpm_from_filename s = firstInRangeSpec (bpmSearches.map (fun m => m s.data)) ∧
    (∀ v, extract_bpm_from_filename s = some v → 80 ≤ v ∧ v ≤ 180) := by
  constructor
  · exact extractLoop_eq_firstInRangeSpec bpmSearches s.data
  · intro v hv
    have h := extractLoop_eq_firstInRangeSpec bpmSearches s.data
    rw [extract_bpm_from_filename] at hv
    rw [hv] at h
    rcases List.exists_of_findSome?_eq_some h.symm with ⟨r, -, hr⟩
    rcases r with - | w
    · simp at hr
    · simp only [Option.some_bind] at hr
      by_cases hw : 80 ≤ w ∧ w ≤ 180
      · rw [if_pos hw] at hr
        cases hr
        exact hw
      · simp [hw] at hr

/-- Witness for C7 at a concrete filename: 128bpm is extracted by the first pattern. -/
theorem c7_extract_order_witness :
    extract_bpm_from_filename "kick_128bpm.wav" =
      firstInRangeSpec (bpmSearches.map (fun m => m "kick_128bpm.wav".data)) ∧
    (80 ≤ 128 ∧ 128 ≤ 180) :=
  ⟨(c7_extract_order "kick_128bpm.wav").1,
   (c7_extract_order "kick_128bpm.wav").2 128 (by decide)⟩

/- ---------- get_bpm (lines 143-188) ----------
   librosa is an external service: its decode and the two tempo estimators
   are an oracle.  The raw estimate is a rational; octave correction and
   snapping to the common-tempo lattice follow the source. -/

/-- The common_bpms list of the source (line 178-180). -/
def COMMON_BPMS : List ℕ :=
  [80, 85, 90, 95, 100, 105, 110, 115, 120,
   122, 124, 126, 128, 130, 132, 135, 138,
   140, 145, 150, 155, 160, 165, 170, 175, 180]

/-- Single octave correction (lines 173-176): double below 80, halve above 180. -/
def octaveFix (b : ℚ) : ℚ :=
  if b < 80 then b * 2 else if b > 180 then b / 2 else b

/-- Python min over a list with key `abs(x - bpm)`: fold over the tail seeded
with the head, keeping the earlier element on ties. -/
def minByDistAux (b : ℚ) (best : ℕ) (xs : List ℕ) : ℕ :=
  xs.foldl (fun (cur x : ℕ) => if |(x : ℚ) - b| < |(cur : ℚ) - b| then x else cur) best

/-- Snap to the nearest lattice tempo (line 181), earliest on ties as Python min. -/
def closestBpm (b : ℚ) : ℕ :=
  minByDistAux b (COMMON_BPMS.headD 0) COMMON_BPMS.tail

/-- Oracle for librosa: decode success, then the primary beat-tracking
estimator and the secondary onset-strength estimator (none models raising). -/
structure TempoOracle where
  load : String → Bool
  beatTrack : String → Option ℚ
  tempoEst : String → Option ℚ

/-- Update of the bpm_cache dictionary. -/
def cacheInsert (cache : String → Option ℕ) (p : String) (v : ℕ) : String → Option ℕ :=
  fun q => if q = p then some v else cache q

/-- MusicMixer.get_bpm (lines 143-188): cached lookup, then filename
extraction, then parent-directory extraction, then content analysis with
octave correction and lattice snapping; any analysis failure falls back to
the target tempo of the engine.  Returns the tempo and the updated cache; the
Python body is wrapped in try/except, so the function is total. -/
def getBpm (target : ℕ) (o : TempoOracle) (cache : String → Option ℕ) (path : String) :
    ℕ × (String → Option ℕ) :=
  match cache path with
  | some b => (b, cache)
  | none =>
    match extract_bpm_from_filename (lowerStr (basename path)) with
    | some b => (b, cacheInsert cache path b)
    | none =>
      match extract_bpm_from_filename (lowerStr (basename (dirname path))) with
      | some b => (b, cacheInsert cache path b)
      | none =>
        if o.load path then
          match o.beatTrack path with
          | some t =>
            let c := closestBpm (octaveFix t)
            (c, cacheInsert cache path c)
          | none =>
            match o.tempoEst path with
            | some t =>
              let c := closestBpm (octaveFix t)
              (c, cacheInsert cache path c)
            | none => (target, cacheInsert cache path target)
        else (target, cacheInsert cache path target)

/-- The fold underlying closestBpm stays inside the seed and the fold list. -/
theorem minByDistAux_mem (b : ℚ) : ∀ (xs : List ℕ) (best : ℕ),
    minByDistAux b best xs ∈ best :: xs := by
  intro xs
  induction xs with
  | nil => intro best; simp [minByDistAux]
  | cons y ys ih =>
    intro best
    have h := ih (if |(y : ℚ) - b| < |(best : ℚ) - b| then y else best)
    simp only [minByDistAux, List.foldl_cons] at h ⊢
    rcases List.mem_cons.mp h with h1 | h1
    · rw [h1]
      split
      · simp
      · simp
    · simp [h1]

/-- Every snapped tempo belongs to the fixed common-tempo lattice. -/
theorem closestBpm_mem (b : ℚ) : closestBpm b ∈ COMMON_BPMS := by
  have h := minByDistAux_mem b COMMON_BPMS.tail (COMMON_BPMS.headD 0)
  exact h

/-- C1 counterexample: get_bpm on the path `track_83bpm.wav` returns the
filename-extracted tempo 83 unsnapped, and 83 is not on the lattice. -/
theorem c1_lattice_counterexample :
    (getBpm 128 ⟨fun _ => true, fun _ => some 120, fun _ => none⟩
        (fun _ => none) "track_83bpm.wav").1 = 83 ∧
    83 ∉ COMMON_BPMS := by
  constructor
  · decide
  · decide

/-- C1 amended: the tempo returned by get_bpm lies on the fixed lattice
whenever it is produced by the content-analysis path (filename and parent
extraction fail, decode succeeds, one of the two estimators yields a value);
tempos extracted from the filename or parent name are returned without
snapping, and on analysis failure the configured target tempo is returned. -/
theorem c1_lattice_amended (target : ℕ) (o : TempoOracle) (cache : String → Option ℕ)
    (path : String) (t : ℚ)
    (h1 : cache path = none)
    (h2 : extract_bpm_from_filename (lowerStr (basename path)) = none)
    (h3 : extract_bpm_from_filename (lowerStr (basename (dirname path))) = none)
    (h4 : o.load path = true)
    (h5 : o.beatTrack path = some t ∨ (o.beatTrack path = none ∧ o.tempoEst path = some t)) :
    (getBpm target o cache path).1 ∈ COMMON_BPMS ∧
    (getBpm target o cache path).1 = closestBpm (octaveFix t) := by
  rcases h5 with h5 | ⟨h5, h6⟩
  · have e : getBpm target o cache path =
        (closestBpm (octaveFix t), cacheInsert cache path (closestBpm (octaveFix t))) := by
      simp [getBpm, h1, h2, h3, h4, h5]
    rw [e]
    exact ⟨closestBpm_mem _, rfl⟩
  · have e : getBpm target o cache path =
        (closestBpm (octaveFix t), cacheInsert cache path (closestBpm (octaveFix t))) := by
      simp [getBpm, h1, h2, h3, h4, h5, h6]
    rw [e]
    exact ⟨closestBpm_mem _, rfl⟩

/-- Witness for the amended C1 at a concrete path and raw estimate 100.5. -/
theorem c1_lattice_amended_witness :
    (getBpm 128 ⟨fun _ => true, fun _ => some (201 / 2), fun _ => none⟩
        (fun _ => none) "groove.wav").1 ∈ COMMON_BPMS ∧
    (getBpm 128 ⟨fun _ => true, fun _ => some (201 / 2), fun _ => none⟩
        (fun _ => none) "groove.wav").1 = closestBpm (octaveFix (201 / 2)) :=
  c1_lattice_amended 128 ⟨fun _ => true, fun _ => some (201 / 2), fun _ => none⟩
    (fun _ => none) "groove.wav" (201 / 2) rfl (by decide) (by decide) rfl (Or.inl rfl)

/-- C9: get_bpm never propagates an error (it is total by construction of the
embedding, mirroring the enclosing try/except); on any failure during content
analysis, decode failure or both estimators raising, it returns the engine's
configured target tempo and caches that value for the path. -/
theorem c9_get_bpm_fallback (target : ℕ) (o : TempoOracle) (cache : String → Option ℕ)
    (path : String)
    (h1 : cache path = none)
    (h2 : extract_bpm_from_filename (lowerStr (basename path)) = none)
    (h3 : extract_bpm_from_filename (lowerStr (basename (dirname path))) = none)
    (h4 : o.load path = false ∨ (o.beatTrack path = none ∧ o.tempoEst path = none)) :
    (getBpm target o cache path).1 = target ∧
    (getBpm target o cache path).2 path = some target := by
  rcases h4 with h4 | ⟨h4, h5⟩
  · simp [getBpm, h1, h2, h3, h4, cacheInsert]
  · by_cases hl : o.load path
    · simp [getBpm, h1, h2, h3, hl, h4, h5, cacheInsert]
    · simp [getBpm, h1, h2, h3, hl, cacheInsert]

/-- Witness for C9 at a concrete path with a decode failure. -/
theorem c9_get_bpm_fallback_witness :
    (getBpm 128 ⟨fun _ => false, fun _ => none, fun _ => none⟩
        (fun _ => none) "groove.wav").1 = 128 ∧
    (getBpm 128 ⟨fun _ => false, fun _ => none, fun _ => none⟩
        (fun _ => none) "groove.wav").2 "groove.wav" = some 128 :=
  c9_get_bpm_fallback 128 ⟨fun _ => false, fun _ => none, fun _ => none⟩
    (fun _ => none) "groove.wav" rfl (by decide) (by decide) (Or.inl rfl)

/- ---------- classify_samples keyword rule (lines 242-268) ---------- -/

/-- Category decision of classify_samples: the if/elif keyword chain applied
to the lower-cased basename, falling through to `other`. -/
def classifyName (filename : String) : String :=
  if ["kick", "drum", "bd", "sd", "snare", "hat"].any (fun w => strContains filename w) then "drums"
  else if ["bass", "sub", "808", "low", "bassline"].any (fun w => strContains filename w) then "bass"
  else if ["melody", "lead", "synth", "pluck", "arp"].any (fun w => strContains filename w) then "melody"
  else if ["chord", "pad", "string", "harmony", "stabs"].any (fun w => strContains filename w) then "harmony"
  else if ["fx", "effect", "impact", "sweep", "rise"].any (fun w => strContains filename w) then "fx"
  else if ["vocal", "voice", "chant", "sing", "vox"].any (fun w => strContains filename w) then "vocals"
  else if ["loop", "groove", "full", "mix"].any (fun w => strContains filename w) then "loops"
  else "other"

/-- The eight fixed categories. -/
def CATEGORIES8 : List String :=
  ["drums", "bass", "melody", "harmony", "fx", "vocals", "loops", "other"]

/-- The keyword sets in the priority order of the if/elif chain, each paired
with its category. -/
def CLASSIFY_RULES : List (String × List String) :=
  [("drums", ["kick", "drum", "bd", "sd", "snare", "hat"]),
   ("bass", ["bass", "sub", "808", "low", "bassline"]),
   ("melody", ["melody", "lead", "synth", "pluck", "arp"]),
   ("harmony", ["chord", "pad", "string", "harmony", "stabs"]),
   ("fx", ["fx", "effect", "impact", "sweep", "rise"]),
   ("vocals", ["vocal", "voice", "chant", "sing", "vox"]),
   ("loops", ["loop", "groove", "full", "mix"])]

/-- Spec-side description of the rule: first category in the fixed priority
order whose keyword set matches, else none. -/
def firstHit : List (String × List String) → String → Option String
  | [], _ => none
  | (c, ws) :: rest, f => if ws.any (fun w => strContains f w) then some c else firstHit rest f

/-- Spec-side classification following the wording of the claim. -/
def specClassifyName (f : String) : String := (firstHit CLASSIFY_RULES f).getD "other"

/-- C8: classification is total and exclusive, always one of the 8 fixed
categories, computed by testing the keyword sets against the filename in the
fixed priority order drums, bass, melody, harmony, fx, vocals, loops with the
first match winning and `other` as the fallback. -/
theorem c8_classify_total_priority (f : String) :
    classifyName f ∈ CATEGORIES8 ∧ classifyName f = specClassifyName f := by
  constructor
  · unfold classifyName CATEGORIES8
    repeat' split
    all_goals simp
  · simp only [specClassifyName, CLASSIFY_RULES, firstHit]
    simp only [classifyName]
    split_ifs <;> rfl

/- ---------- audio length model ----------
   An AudioSegment is modelled by its length in milliseconds (a rational;
   pydub frame-boundary rounding is not modelled).  Concatenation adds
   lengths, `seg[:x]` truncates to min, overlay keeps the base length,
   apply_gain keeps the length. -/

/-- Length of the result of `looped = empty; while len(looped) < target: looped += audio`:
the least multiple of the audio length reaching the target (0 repetitions when
the target is already nonpositive).  For a nonpositive audio length the Python
loop would not terminate; the guard value 0 is outside the faithful domain. -/
def loopPadLen (l target : ℚ) : ℚ :=
  if l ≤ 0 then 0 else l * ((max ⌈target / l⌉ 0 : ℤ) : ℚ)

/-- The ideal unit length of optimize_audio_length (lines 208-210):
4 beats per measure, 4 measures, 60000/tempo ms per beat. -/
def unitLength (target_bpm : ℕ) : ℚ := 60000 / (target_bpm : ℚ) * 4 * 4

/-- MusicMixer.optimize_audio_length (lines 205-220): audio shorter than the
unit is loop-padded and truncated to the unit; anything else is returned
unchanged. -/
def optimize_audio_length (l : ℚ) (target_bpm : ℕ) : ℚ :=
  if l < unitLength target_bpm then
    min (loopPadLen l (unitLength target_bpm)) (unitLength target_bpm)
  else l

/-- MusicMixer.change_tempo (lines 222-240): length scales by current/target
(sample-rate rounding not modelled); degenerate tempos leave the audio alone. -/
def change_tempo (l : ℚ) (current_bpm target_bpm : ℕ) : ℚ :=
  if current_bpm = target_bpm || current_bpm = 0 then l
  else l * (current_bpm : ℚ) / (target_bpm : ℚ)

/-- Loop padding reaches the target when the audio length is positive. -/
theorem loopPadLen_ge (l target : ℚ) (hl : 0 < l) (ht : 0 < target) :
    target ≤ loopPadLen l target := by
  rw [loopPadLen, if_neg (not_le.mpr hl)]
  have hdiv : 0 < target / l := div_pos ht hl
  have hceil : 0 < ⌈target / l⌉ := Int.ceil_pos.mpr hdiv
  rw [max_eq_left hceil.le]
  have h1 : target / l ≤ ((⌈target / l⌉ : ℤ) : ℚ) := Int.le_ceil _
  calc target = l * (target / l) := by field_simp
    _ ≤ l * ((⌈target / l⌉ : ℤ) : ℚ) := by
        exact mul_le_mul_of_nonneg_left h1 hl.le

/-- C4 counterexample: at target tempo 128 the unit is 7500 ms, but an input
of 10000 ms is returned unchanged, so the result is not one unit long. -/
theorem c4_length_counterexample :
    optimize_audio_length 10000 128 = 10000 ∧
    unitLength 128 = 7500 ∧ (10000 : ℚ) ≠ 7500 := by
  refine ⟨?_, ?_, ?_⟩
  · rw [optimize_audio_length, if_neg]
    rw [unitLength]
    norm_num
  · rw [unitLength]; norm_num
  · norm_num

/-- C4 amended: optimize_audio_length returns audio of length
`max (input length) (unit length)`: audio shorter than one unit is loop-padded
and truncated to exactly one unit, audio at least one unit long is returned
unchanged. -/
theorem c4_length_amended (l : ℚ) (t : ℕ) (hl : 0 < l) (ht : 0 < t) :
    optimize_audio_length l t = max l (unitLength t) := by
  have htq : (0 : ℚ) < (t : ℚ) := by exact_mod_cast ht
  have hid : 0 < unitLength t := by
    rw [unitLength]
    positivity
  rw [optimize_audio_length]
  by_cases hlt : l < unitLength t
  · rw [if_pos hlt, max_eq_right hlt.le,
      min_eq_right (loopPadLen_ge l (unitLength t) hl hid)]
  · rw [if_neg hlt, max_eq_left (not_lt.mp hlt)]

/-- Witness for the amended C4: a 3 ms clip at tempo 128 becomes one unit. -/
theorem c4_length_amended_witness :
    (0 : ℚ) < 3 ∧ 0 < 128 ∧ optimize_audio_length 3 128 = max 3 (unitLength 128) :=
  ⟨by norm_num, by norm_num, c4_length_amended 3 128 (by norm_num) (by norm_num)⟩

/- ---------- generate_mix_audio (lines 374-401) ---------- -/

/-- A planned layer: category, sample path, processed audio (by length),
original tempo, resolved key and volume. -/
structure Layer where
  category : String
  sample : String
  audioLen : ℚ
  original_bpm : ℕ
  key : Option String
  volume : ℚ

/-- pydub overlay keeps the length of the base segment. -/
def overlayLen (base _other : ℚ) : ℚ := base

/-- MusicMixer.generate_mix_audio (lines 374-401): silent canvas of the
requested duration; each layer is gain-adjusted (length unchanged),
loop-padded to the duration, truncated exactly at the duration boundary and
overlaid; raises on an empty layer list.  The result is the length of the
exported mix. -/
def generate_mix_audio (layers : List Layer) (duration_ms : ℚ) : Except String ℚ :=
  if layers.isEmpty then Except.error "Нет слоев для микширования"
  else Except.ok (layers.foldl
    (fun mix l => overlayLen mix (min (loopPadLen l.audioLen duration_ms) duration_ms))
    duration_ms)

/-- Folding a function that keeps its accumulator returns the seed. -/
theorem foldl_keep {α β : Type} : ∀ (xs : List α) (d : β), xs.foldl (fun m _ => m) d = d := by
  intro xs
  induction xs with
  | nil => intro d; rfl
  | cons x xs ih => intro d; exact ih d

/-- C5: whenever generate_mix_audio returns, the duration of the rendered audio is
exactly the requested mix duration, regardless of the individual layer
lengths (positive lengths are required for the Python padding loops to
terminate). -/
theorem c5_mix_duration (layers : List Layer) (duration_ms : ℚ)
    (h : layers ≠ []) (_hpos : ∀ l ∈ layers, 0 < l.audioLen) :
    generate_mix_audio layers duration_ms = Except.ok duration_ms := by
  rw [generate_mix_audio, if_neg (by simpa using h)]
  simp only [overlayLen]
  rw [foldl_keep]

/-- Witness for C5: one 7500 ms drums layer renders to exactly 30000 ms. -/
theorem c5_mix_duration_witness :
    generate_mix_audio [⟨"drums", "kick.wav", 7500, 128, none, 1⟩] 30000 =
      Except.ok 30000 :=
  c5_mix_duration [⟨"drums", "kick.wav", 7500, 128, none, 1⟩] 30000
    (by simp) (by intro l hl; simp at hl; rw [hl]; norm_num)

/- ---------- create_multilayer_composition (lines 270-372) ----------
   Randomness is an oracle: draw models the random.random() test applied
   once to each non-empty category, sampleChoice models random.sample,
   choiceIdx models random.choice as an index, uniform models
   random.uniform within the volume range of the category.  loadSeg models
   AudioSegment.from_file by the decoded length, none modelling a decode
   exception (the layer is then skipped).  get_bpm and get_sample_key are
   deterministic per engine instance (cached), so they enter as functions
   bpmOf and keyOf.  The timestamp field of composition_info is real time
   and is not modelled. -/

/-- A sample as stored in a category: path, tempo, optional key. -/
abbrev SampleEntry := String × ℕ × Option String

/-- Decidable equality of Except results, used to evaluate concrete runs. -/
instance exceptDecEq {ε α : Type} [DecidableEq ε] [DecidableEq α] :
    DecidableEq (Except ε α)
  | Except.error e, Except.error f =>
    if h : e = f then isTrue (by rw [h]) else isFalse (by intro hh; cases hh; exact h rfl)
  | Except.error _, Except.ok _ => isFalse (by intro hh; cases hh)
  | Except.ok _, Except.error _ => isFalse (by intro hh; cases hh)
  | Except.ok x, Except.ok y =>
    if h : x = y then isTrue (by rw [h]) else isFalse (by intro hh; cases hh; exact h rfl)

/-- STANDARD_PROBABILITIES of the source (lines 24-27; 0.9 = 9/10 and so on). -/
def STANDARD_PROBABILITIES : List (String × ℚ) :=
  [("drums", mkRat 9 10), ("bass", mkRat 4 5), ("melody", mkRat 7 10),
   ("harmony", mkRat 3 5), ("vocals", mkRat 2 5), ("fx", mkRat 3 10),
   ("loops", mkRat 1 2), ("other", mkRat 1 5)]

/-- EXPERIMENTAL_PROBABILITIES of the source (lines 29-32). -/
def EXPERIMENTAL_PROBABILITIES : List (String × ℚ) :=
  [("drums", mkRat 3 5), ("bass", mkRat 1 2), ("melody", mkRat 4 5),
   ("harmony", mkRat 7 10), ("vocals", mkRat 3 5), ("fx", mkRat 4 5),
   ("loops", mkRat 2 5), ("other", mkRat 9 10)]

/-- Dictionary lookup with default 0 (all used keys are present). -/
def dictGetQ (d : List (String × ℚ)) (k : String) : ℚ :=
  ((d.find? (fun p => p.1 = k)).map Prod.snd).getD 0

/-- The priority_order list of create_multilayer_composition (line 291). -/
def PRIORITY_ORDER : List String :=
  ["drums", "bass", "melody", "harmony", "vocals", "fx", "loops", "other"]

/-- The volume_ranges dictionary (lines 314-318; 0.4 = 2/5 and so on). -/
def volume_ranges : List (String × (ℚ × ℚ)) :=
  [("drums", (mkRat 2 5, mkRat 9 10)), ("bass", (mkRat 3 10, mkRat 4 5)),
   ("melody", (mkRat 1 5, mkRat 7 10)), ("harmony", (mkRat 1 5, mkRat 3 5)),
   ("fx", (mkRat 1 10, mkRat 4 5)), ("vocals", (mkRat 3 10, mkRat 4 5)),
   ("loops", (mkRat 1 5, mkRat 7 10)), ("other", (mkRat 1 10, mkRat 9 10))]

/-- volume_ranges.get(category, (0.2, 0.7)); the uniform draw of the oracle is
taken inside this range. -/
def volRange (cat : String) : ℚ × ℚ :=
  ((volume_ranges.find? (fun p => p.1 = cat)).map Prod.snd).getD (mkRat 1 5, mkRat 7 10)

/-- The oracle bundling the random source and the audio decoder. -/
structure PlanOracle where
  draw : String → ℚ
  sampleChoice : List String → ℕ → List String
  choiceIdx : String → ℕ
  uniform : String → ℚ
  loadSeg : String → Option ℚ

/-- The engine configuration fields used by the planner. -/
structure MusicMixerCfg where
  target_bpm : ℕ
  current_key : String
  experimental_mode : Bool

/-- Per-layer summary appended to composition_info (lines 361-367). -/
structure LayerInfo where
  category : String
  sample : String
  original_bpm : ℕ
  key : Option String
  volume : ℚ
deriving DecidableEq

/-- composition_info (lines 283-289, timestamp not modelled). -/
structure CompInfo where
  layers : List LayerInfo
  bpm : ℕ
  key : String
  mode : String
deriving DecidableEq

/-- MusicMixer.classify_samples (lines 242-268) viewed per category: the
entries of categories[cat], in sample order. -/
def classify_samples (bpmOf : String → ℕ) (keyOf : String → Option String)
    (samples : List String) (cat : String) : List SampleEntry :=
  (samples.filter (fun s => classifyName (lowerStr (basename s)) = cat)).map
    (fun s => (s, bpmOf s, keyOf s))

/-- Category admission loop (lines 298-302): one random draw per non-empty
category, in priority order, against the probability table of the mode. -/
def admittedCategories (o : PlanOracle) (experimental : Bool)
    (cats : String → List SampleEntry) : List String :=
  PRIORITY_ORDER.filter (fun c =>
    !(cats c).isEmpty &&
      decide (o.draw c < dictGetQ
        (if experimental then EXPERIMENTAL_PROBABILITIES else STANDARD_PROBABILITIES) c))

/-- available_categories after the fallback (lines 304-306): if the draws
admit nothing, every non-empty category is admitted. -/
def availableCategories (o : PlanOracle) (experimental : Bool)
    (cats : String → List SampleEntry) : List String :=
  if (admittedCategories o experimental cats).isEmpty then
    PRIORITY_ORDER.filter (fun c => !(cats c).isEmpty)
  else admittedCategories o experimental cats

/-- Categories exempt from key filtering (line 331). -/
def keyExempt (cat : String) : Bool :=
  cat = "drums" || cat = "fx" || cat = "other"

/-- samples_to_use for one category (lines 324-337): the key-compatible
subset, or the whole category when the subset is empty. -/
def pickPool (compatKeys : List String) (cat : String)
    (entries : List SampleEntry) : List SampleEntry :=
  let compatible := entries.filter (fun e =>
    keyExempt cat ||
      (match e.2.2 with
       | none => true
       | some k => compatKeys.contains k))
  if compatible.isEmpty then entries else compatible

/-- The per-category loop of create_multilayer_composition (lines 322-370):
for each selected category, pick one sample from its pool, decode it
(skipping the layer on a decode exception), fit its length to the unit,
shift its tempo when more than 1 BPM away from the target, and record the
layer and its summary. -/
def buildLayers (o : PlanOracle) (cfg : MusicMixerCfg)
    (cats : String → List SampleEntry) (compatKeys : List String) :
    List String → List Layer × List LayerInfo
  | [] => ([], [])
  | cat :: rest =>
    let prev := buildLayers o cfg cats compatKeys rest
    if (cats cat).isEmpty then prev
    else
      let pool := pickPool compatKeys cat (cats cat)
      if pool.isEmpty then prev
      else
        let e := pool.getD (o.choiceIdx cat % pool.length) ("", 0, none)
        match o.loadSeg e.1 with
        | none => prev
        | some len0 =>
          let len1 := optimize_audio_length len0 cfg.target_bpm
          let len2 :=
            if 0 < e.2.1 ∧ 1 < ((e.2.1 : ℤ) - (cfg.target_bpm : ℤ)).natAbs then
              change_tempo len1 e.2.1 cfg.target_bpm
            else len1
          (Layer.mk cat e.1 len2 e.2.1 e.2.2 (o.uniform cat) :: prev.1,
           LayerInfo.mk cat (basename e.1) e.2.1 e.2.2 (o.uniform cat) :: prev.2)

/-- MusicMixer.create_multilayer_composition (lines 270-372).  An empty
sample list raises the no-audio-files ValueError; an empty available set
returns an empty layer list together with the base composition_info (not an
error); otherwise min(num_layers, len(available)) distinct categories are
sampled and built into layers. -/
def create_multilayer_composition (o : PlanOracle) (cfg : MusicMixerCfg)
    (num_layers : ℕ) (bpmOf : String → ℕ) (keyOf : String → Option String)
    (samples : List String) : Except String (List Layer × CompInfo) :=
  if samples.isEmpty then Except.error "Не найдено аудиофайлов"
  else
    let cats := classify_samples bpmOf keyOf samples
    let base := CompInfo.mk [] cfg.target_bpm cfg.current_key
      (if cfg.experimental_mode then "экспериментальный" else "стандартный")
    let available := availableCategories o cfg.experimental_mode cats
    if available.isEmpty then Except.ok ([], base)
    else
      let actual_layers := min num_layers available.length
      let selected := o.sampleChoice available actual_layers
      let built := buildLayers o cfg cats (get_compatible_keys cfg.current_key) selected
      Except.ok (built.1, CompInfo.mk built.2 base.bpm base.key base.mode)

/-- MusicMixer.generate_complete_mix (lines 403-423): plan, fail when no
layer was built, render at the default 30000 ms duration. -/
def generate_complete_mix (o : PlanOracle) (cfg : MusicMixerCfg)
    (num_layers : ℕ) (bpmOf : String → ℕ) (keyOf : String → Option String)
    (samples : List String) : Except String (ℚ × CompInfo) :=
  match create_multilayer_composition o cfg num_layers bpmOf keyOf samples with
  | Except.error e => Except.error e
  | Except.ok (layers, info) =>
    if layers.isEmpty then Except.error "Не удалось создать композицию"
    else
      match generate_mix_audio layers 30000 with
      | Except.error e => Except.error e
      | Except.ok mixLen => Except.ok (mixLen, info)

/-- Number of categories containing at least one sample. -/
def nonemptyCategoryCount (bpmOf : String → ℕ) (keyOf : String → Option String)
    (samples : List String) : ℕ :=
  (PRIORITY_ORDER.filter (fun c =>
    !(classify_samples bpmOf keyOf samples c).isEmpty)).length

/-- Filtering by a conjunction keeps at most as many elements as filtering by
one conjunct. -/
theorem length_filter_and_le {α : Type} (l : List α) (p q : α → Bool) :
    (l.filter (fun a => p a && q a)).length ≤ (l.filter p).length := by
  induction l with
  | nil => simp
  | cons a l ih =>
    by_cases hp : p a
    · by_cases hq : q a
      · simp [List.filter_cons, hp, hq]
        omega
      · simp [List.filter_cons, hp, hq]
        omega
    · simp [List.filter_cons, hp]
      exact ih

/-- The admitted categories are at most the non-empty categories. -/
theorem availableCategories_length_le (o : PlanOracle) (experimental : Bool)
    (cats : String → List SampleEntry) :
    (availableCategories o experimental cats).length ≤
      (PRIORITY_ORDER.filter (fun c => !(cats c).isEmpty)).length := by
  rw [availableCategories]
  by_cases h : (admittedCategories o experimental cats).isEmpty
  · rw [if_pos h]
  · rw [if_neg h, admittedCategories]
    exact length_filter_and_le PRIORITY_ORDER _ _

/-- buildLayers produces as many summaries as layers, and at most one layer
per selected category. -/
theorem buildLayers_bounds (o : PlanOracle) (cfg : MusicMixerCfg)
    (cats : String → List SampleEntry) (ck : List String) :
    ∀ sel : List String,
      (buildLayers o cfg cats ck sel).2.length = (buildLayers o cfg cats ck sel).1.length ∧
      (buildLayers o cfg cats ck sel).1.length ≤ sel.length := by
  intro sel
  induction sel with
  | nil => simp [buildLayers]
  | cons cat rest ih =>
    simp only [buildLayers]
    by_cases h1 : (cats cat).isEmpty
    · rw [if_pos h1]
      exact ⟨ih.1, ih.2.trans (Nat.le_succ _)⟩
    · rw [if_neg h1]
      by_cases h2 : (pickPool ck cat (cats cat)).isEmpty
      · rw [if_pos h2]
        exact ⟨ih.1, ih.2.trans (Nat.le_succ _)⟩
      · rw [if_neg h2]
        split
        · exact ⟨ih.1, ih.2.trans (Nat.le_succ _)⟩
        · simp only [List.length_cons]
          exact ⟨by rw [ih.1], Nat.succ_le_succ ih.2⟩

/-- Classification always lands in the priority_order list of the planner. -/
theorem classifyName_mem_priority (f : String) : classifyName f ∈ PRIORITY_ORDER := by
  unfold classifyName PRIORITY_ORDER
  repeat' split
  all_goals simp

/-- C3 counterexample: with an empty sample list zero categories contain any
sample, yet create_multilayer_composition fails with the no-audio-files
ValueError of the NoSamplesFound case; no distinguishable NoUsableCategories
error is raised (the empty-available-categories branch returns an empty layer
list without raising). -/
theorem c3_error_counterexample :
    (PRIORITY_ORDER.all (fun cat =>
      (classify_samples (fun _ => 128) (fun _ => none) [] cat).isEmpty)) = true ∧
    create_multilayer_composition
      ⟨fun _ => 0, fun pop k => pop.take k, fun _ => 0, fun _ => 1/2, fun _ => some 7500⟩
      ⟨128, "8A", false⟩ 3 (fun _ => 128) (fun _ => none) [] =
      Except.error "Не найдено аудиофайлов" :=
  ⟨rfl, rfl⟩

/-- C3 amended: zero categories contain any sample exactly when the sample
list is empty (classification is total), and in that case
create_multilayer_composition fails before classification with the
no-audio-files ValueError of the NoSamplesFound case; there is no separate
NoUsableCategories error. -/
theorem c3_error_amended (o : PlanOracle) (cfg : MusicMixerCfg) (n : ℕ)
    (bpmOf : String → ℕ) (keyOf : String → Option String) (samples : List String) :
    ((∀ cat ∈ PRIORITY_ORDER, classify_samples bpmOf keyOf samples cat = []) ↔
      samples = []) ∧
    (samples = [] →
      create_multilayer_composition o cfg n bpmOf keyOf samples =
        Except.error "Не найдено аудиофайлов") := by
  constructor
  · constructor
    · intro h
      by_contra hs
      obtain ⟨s, rest, rfl⟩ := List.exists_cons_of_ne_nil hs
      have hc := classifyName_mem_priority (lowerStr (basename s))
      have h2 := h _ hc
      rw [classify_samples, List.map_eq_nil_iff] at h2
      have hmem : s ∈ (s :: rest).filter
          (fun x => classifyName (lowerStr (basename x)) =
            classifyName (lowerStr (basename s))) :=
        List.mem_filter.mpr ⟨List.mem_cons_self _ _, by simp⟩
      rw [h2] at hmem
      exact absurd hmem (List.not_mem_nil _)
    · intro h cat hcat
      subst h
      simp [classify_samples]
  · intro h
    subst h
    rfl

/-- Witness for the amended C3: the empty sample list produces the
no-audio-files error. -/
theorem c3_error_amended_witness :
    create_multilayer_composition
      ⟨fun _ => 0, fun pop k => pop.take k, fun _ => 0, fun _ => 1/2, fun _ => some 7500⟩
      ⟨128, "8A", false⟩ 3 (fun _ => 140) (fun _ => none) [] =
      Except.error "Не найдено аудиофайлов" :=
  (c3_error_amended
    ⟨fun _ => 0, fun pop k => pop.take k, fun _ => 0, fun _ => 1/2, fun _ => some 7500⟩
    ⟨128, "8A", false⟩ 3 (fun _ => 140) (fun _ => none) []).2 rfl

/-- A successful plan has as many summaries as layers, and at most
min(requested, non-empty categories) layers. -/
theorem create_ok_bounds (o : PlanOracle) (cfg : MusicMixerCfg) (n : ℕ)
    (bpmOf : String → ℕ) (keyOf : String → Option String) (samples : List String)
    (layers : List Layer) (info : CompInfo)
    (hs : ∀ pop k, k ≤ pop.length → (o.sampleChoice pop k).length = k)
    (hok : create_multilayer_composition o cfg n bpmOf keyOf samples =
      Except.ok (layers, info)) :
    info.layers.length = layers.length ∧
    layers.length ≤ min n (nonemptyCategoryCount bpmOf keyOf samples) := by
  simp only [create_multilayer_composition] at hok
  by_cases h0 : samples.isEmpty
  · rw [if_pos h0] at hok
    exact absurd hok (by simp)
  · rw [if_neg h0] at hok
    by_cases h1 : (availableCategories o cfg.experimental_mode
        (classify_samples bpmOf keyOf samples)).isEmpty
    · rw [if_pos h1] at hok
      simp only [Except.ok.injEq, Prod.mk.injEq] at hok
      obtain ⟨hl, hi⟩ := hok
      subst hl
      rw [← hi]
      simp
    · rw [if_neg h1] at hok
      simp only [Except.ok.injEq, Prod.mk.injEq] at hok
      obtain ⟨hl, hi⟩ := hok
      have hb := buildLayers_bounds o cfg (classify_samples bpmOf keyOf samples)
        (get_compatible_keys cfg.current_key)
        (o.sampleChoice
          (availableCategories o cfg.experimental_mode (classify_samples bpmOf keyOf samples))
          (min n (availableCategories o cfg.experimental_mode
            (classify_samples bpmOf keyOf samples)).length))
      have hsel := hs
        (availableCategories o cfg.experimental_mode (classify_samples bpmOf keyOf samples))
        (min n (availableCategories o cfg.experimental_mode
          (classify_samples bpmOf keyOf samples)).length)
        (min_le_right _ _)
      have havail := availableCategories_length_le o cfg.experimental_mode
        (classify_samples bpmOf keyOf samples)
      constructor
      · rw [← hi, ← hl]
        exact hb.1
      · rw [← hl]
        calc _ ≤ _ := hb.2
          _ = _ := hsel
          _ ≤ min n (nonemptyCategoryCount bpmOf keyOf samples) :=
            min_le_min (le_refl n) havail

/-- C6: every successful rendering request produces between 1 and
min(requested layer count, number of non-empty categories) layers: the planner
samples min(N, |available|) distinct categories and builds at most one layer
per sampled category. -/
theorem c6_layer_count_bounds (o : PlanOracle) (cfg : MusicMixerCfg) (n : ℕ)
    (bpmOf : String → ℕ) (keyOf : String → Option String) (samples : List String)
    (mixLen : ℚ) (info : CompInfo)
    (hs : ∀ pop k, k ≤ pop.length → (o.sampleChoice pop k).length = k)
    (hok : generate_complete_mix o cfg n bpmOf keyOf samples =
      Except.ok (mixLen, info)) :
    1 ≤ info.layers.length ∧
    info.layers.length ≤ min n (nonemptyCategoryCount bpmOf keyOf samples) := by
  rw [generate_complete_mix] at hok
  cases hc : create_multilayer_composition o cfg n bpmOf keyOf samples with
  | error e =>
    rw [hc] at hok
    exact absurd hok (by simp)
  | ok p =>
    rw [hc] at hok
    obtain ⟨layers, info'⟩ := p
    dsimp only at hok
    by_cases hne : layers.isEmpty
    · rw [if_pos hne] at hok
      exact absurd hok (by simp)
    · rw [if_neg hne] at hok
      cases hg : generate_mix_audio layers 30000 with
      | error e =>
        rw [hg] at hok
        exact absurd hok (by simp)
      | ok m =>
        rw [hg] at hok
        simp only [Except.ok.injEq, Prod.mk.injEq] at hok
        obtain ⟨-, hi⟩ := hok
        subst hi
        have hb := create_ok_bounds o cfg n bpmOf keyOf samples layers info' hs hc
        have hpos : 0 < layers.length :=
          List.length_pos.mpr (by simpa using hne)
        omega

/-- Oracle for the C6 witness run. -/
abbrev w6oracle : PlanOracle :=
  ⟨fun _ => 0, fun pop k => pop.take k, fun _ => 0, fun _ => mkRat 1 2, fun _ => some 7500⟩

/-- Engine configuration for the C6 witness run. -/
abbrev w6cfg : MusicMixerCfg := ⟨128, "8A", false⟩

/-- Expected composition record of the C6 witness run. -/
abbrev w6info : CompInfo :=
  CompInfo.mk [LayerInfo.mk "drums" "kick.wav" 128 none (mkRat 1 2)] 128 "8A" "стандартный"

/-- Layers built in the C6 witness run (kept symbolic: the claim only counts). -/
abbrev w6built : List Layer × List LayerInfo :=
  buildLayers w6oracle w6cfg (classify_samples (fun _ => 128) (fun _ => none) ["kick.wav"])
    (get_compatible_keys "8A") ["drums"]

/-- Witness for C6: one drums sample, three requested layers, one rendered
layer, one non-empty category. -/
theorem c6_layer_count_bounds_witness :
    1 ≤ w6info.layers.length ∧
    w6info.layers.length ≤
      min 3 (nonemptyCategoryCount (fun _ => 128) (fun _ => none) ["kick.wav"]) :=
  c6_layer_count_bounds w6oracle w6cfg 3 (fun _ => 128) (fun _ => none) ["kick.wav"]
    30000 w6info
    (by
      intro pop k h
      simp [List.length_take, Nat.min_eq_left h])
    (by
      have havail : availableCategories w6oracle w6cfg.experimental_mode
          (classify_samples (fun _ => 128) (fun _ => none) ["kick.wav"]) = ["drums"] := by
        decide
      have hb2 : w6built.2 = [LayerInfo.mk "drums" "kick.wav" 128 none (mkRat 1 2)] := by
        decide
      have hb1 : w6built.1.isEmpty = false := by decide
      have hcreate : create_multilayer_composition w6oracle w6cfg 3
          (fun _ => 128) (fun _ => none) ["kick.wav"] = Except.ok (w6built.1, w6info) := by
        simp only [create_multilayer_composition]
        rw [if_neg (by decide)]
        rw [havail]
        rw [if_neg (by decide)]
        rw [show List.take (min 3 (["drums"] : List String).length) ["drums"] = ["drums"]
          by decide]
        rw [show (buildLayers w6oracle w6cfg
            (classify_samples (fun _ => 128) (fun _ => none) ["kick.wav"])
            (get_compatible_keys "8A") ["drums"]).2 =
            [LayerInfo.mk "drums" "kick.wav" 128 none (mkRat 1 2)] from hb2]
        rfl
      have hmix : generate_mix_audio w6built.1 30000 = Except.ok 30000 := by
        rw [generate_mix_audio, hb1]
        rw [if_neg (by simp)]
        simp only [overlayLen]
        rw [foldl_keep]
      rw [generate_complete_mix, hcreate]
      dsimp only
      rw [hb1, if_neg (by simp), hmix])
